import Mathlib

/-!
Verification of the agentbox authorization/dispatch middleware
(`a2a/skill`: identity_resolver.py, policy_engine.py, rate_limiter.py,
openclaw_client.py, skill_router.py) via a shallow embedding.

Modelling notes:
- Parameter bags are modelled as a record of the optional fields the code
  reads (`timeout_seconds`, `language`, `content`, `path`, `url`) plus the
  fields used by the message templates; an absent dict key is `none`.
- `time.monotonic()` is modelled as an explicit `Int` clock value threaded
  through the rate limiter and `dispatch`.
- The async gateway call is modelled by an explicit `GatewayOutcome` input
  describing what the HTTP layer did (connection failure, timeout, or a
  response with a status, body and parsed JSON fields).
- `dispatch` is a total function returning the response plus the updated
  rate-limiter state, so every outcome is a structured result by
  construction.
-/

/-- `identity_resolver.Identity`: resolved identity of a Slack user. -/
structure Identity where
  slack_user_id : String
  role : String
  display_name : String := ""
deriving DecidableEq, Repr

/-- Parameter bag: the dict keys read by the policy engine and the
message templates. `none` means the key is absent from the dict. -/
structure Params where
  timeout_seconds : Option Int := none
  language : Option String := none
  content : Option String := none
  path : Option String := none
  url : Option String := none
  query : Option String := none
  code : Option String := none
  description : Option String := none
  target : Option String := none
deriving DecidableEq, Repr

/-- One action's `parameter_constraints` entry from roles.yaml. -/
structure ConstraintSet where
  max_timeout_seconds : Option Int := none
  allowed_languages : Option (List String) := none
  max_size_bytes : Option Nat := none
  blocked_paths : Option (List String) := none
  blocked_patterns : Option (List String) := none
deriving DecidableEq, Repr

/-- A role's configuration dict from roles.yaml; missing keys default the
way the `.get` calls in the code default them. -/
structure RoleConfig where
  allowed_actions : List String := []
  denied_actions : List String := []
  parameter_constraints : List (String × ConstraintSet) := []
  rate_limit : Option Nat := none
deriving DecidableEq, Repr

/-- `policy_engine.PolicyResult`. -/
structure PolicyResult where
  allowed : Bool
  reason : String
  sanitized_params : Params := {}
  role : String := ""
deriving DecidableEq, Repr

/-- `skill_router.SkillResponse`. -/
structure SkillResponse where
  allowed : Bool
  response : String
  role : String
  reason : String := ""
  action : String := ""
  slack_user_id : String := ""
deriving DecidableEq, Repr

/-- Python substring membership `pat in s`. -/
def strContains (s pat : String) : Bool :=
  decide (pat.data <:+: s.data)

/-- `identity_resolver.IdentityResolver.DEFAULT_ROLE`. -/
def DEFAULT_ROLE : String := "readonly"

/-- `IdentityResolver.resolve`: empty ids and ids absent from the role map
fall back to the default role; otherwise the mapped role is used. -/
def IdentityResolver.resolve (role_map : List (String × String))
    (default_role : String) (slack_user_id : String) : Identity :=
  if slack_user_id = "" then
    { slack_user_id := "", role := default_role }
  else
    { slack_user_id := slack_user_id
      role := (role_map.lookup slack_user_id).getD default_role }

/-- Whether a constraint dict is empty (`if not action_constraints`). -/
def ConstraintSet.isEmpty (ac : ConstraintSet) : Bool :=
  ac.max_timeout_seconds.isNone && ac.allowed_languages.isNone &&
    ac.max_size_bytes.isNone && ac.blocked_paths.isNone &&
    ac.blocked_patterns.isNone

/-- `max_timeout_seconds` handling: clamp `timeout_seconds` down when it
exceeds the configured maximum. -/
def clampTimeout (ac : ConstraintSet) (p : Params) : Params :=
  match ac.max_timeout_seconds with
  | none => p
  | some max_t =>
    match p.timeout_seconds with
    | none => p
    | some t => if t > max_t then { p with timeout_seconds := some max_t } else p

/-- Reason string for a rejected language. -/
def languageReason (lang : String) (langs : List String) : String :=
  "Language \x27" ++ lang ++ "\x27 is not permitted. Allowed: " ++
    String.intercalate ", " langs ++ "."

/-- `allowed_languages` handling: the whitelist is enforced only when the
`language` value is truthy (present and non-empty). -/
def languageCheck (ac : ConstraintSet) (p : Params) : Except String Unit :=
  match ac.allowed_languages with
  | none => Except.ok ()
  | some langs =>
    let lang := p.language.getD ""
    if lang ≠ "" && !(langs.contains lang) then
      Except.error (languageReason lang langs)
    else Except.ok ()

/-- Reason string for oversized content. -/
def sizeReason (max_b : Nat) (action : String) : String :=
  "Content exceeds maximum size of " ++ toString max_b ++
    " bytes for action \x27" ++ action ++ "\x27."

/-- `max_size_bytes` handling: the UTF-8 byte length of `content` must not
exceed the configured maximum. -/
def sizeCheck (ac : ConstraintSet) (action : String) (p : Params) :
    Except String Unit :=
  match ac.max_size_bytes with
  | none => Except.ok ()
  | some max_b =>
    let content := p.content.getD ""
    if content.utf8ByteSize > max_b then
      Except.error (sizeReason max_b action)
    else Except.ok ()

/-- Reason string for a blocked path. -/
def pathReason (path : String) : String :=
  "Access to path \x27" ++ path ++ "\x27 is not permitted for your role."

/-- `blocked_paths` handling: the first blocked substring found in `path`
aborts the decision. -/
def pathsCheck (ac : ConstraintSet) (p : Params) : Except String Unit :=
  match ac.blocked_paths with
  | none => Except.ok ()
  | some blocked =>
    let path := p.path.getD ""
    match blocked.find? (fun b => strContains path b) with
    | some _ => Except.error (pathReason path)
    | none => Except.ok ()

/-- Reason string for a blocked URL pattern. -/
def patternReason (url pattern : String) : String :=
  "URL \x27" ++ url ++ "\x27 contains a blocked pattern \x27" ++ pattern ++ "\x27."

/-- `blocked_patterns` handling: the first blocked substring found in `url`
aborts the decision, naming the pattern. -/
def patternsCheck (ac : ConstraintSet) (p : Params) : Except String Unit :=
  match ac.blocked_patterns with
  | none => Except.ok ()
  | some blocked =>
    let url := p.url.getD ""
    match blocked.find? (fun b => strContains url b) with
    | some pattern => Except.error (patternReason url pattern)
    | none => Except.ok ()

/-- `PolicyEngine._apply_parameter_constraints`: look up the action's
constraint set, return the bag unchanged when there is none, otherwise
clamp the timeout and then run the four hard checks in source order,
stopping at the first violation. -/
def applyParameterConstraints (constraints : List (String × ConstraintSet))
    (action : String) (params : Params) : Except String Params :=
  match constraints.lookup action with
  | none => Except.ok params
  | some ac =>
    if ac.isEmpty then Except.ok params
    else
      let sanitized := clampTimeout ac params
      match languageCheck ac sanitized with
      | Except.error e => Except.error e
      | Except.ok _ =>
        match sizeCheck ac action sanitized with
        | Except.error e => Except.error e
        | Except.ok _ =>
          match pathsCheck ac sanitized with
          | Except.error e => Except.error e
          | Except.ok _ =>
            match patternsCheck ac sanitized with
            | Except.error e => Except.error e
            | Except.ok _ => Except.ok sanitized

/-- Reason string for an unknown role. -/
def unknownRoleReason (role_name : String) : String :=
  "Unknown role \x27" ++ role_name ++ "\x27. Contact an admin."

/-- Reason string for an explicitly denied action. -/
def explicitDenyReason (action role_name : String) : String :=
  "Action \x27" ++ action ++ "\x27 is explicitly denied for role \x27" ++
    role_name ++ "\x27."

/-- Reason string for an action missing from the allow list. -/
def notAllowedReason (action role_name : String)
    (allowed_actions : List String) : String :=
  let listed := String.intercalate ", " allowed_actions
  "Action \x27" ++ action ++ "\x27 is not permitted for role \x27" ++
    role_name ++ "\x27. Allowed actions: " ++
    (if listed = "" then "none" else listed) ++ "."

/-- Reason string for a permitted action. -/
def permittedReason (action role_name : String) : String :=
  "Action \x27" ++ action ++ "\x27 permitted for role \x27" ++ role_name ++ "\x27."

/-- `PolicyEngine.check`: unknown role denies; explicit denials are checked
before the allow list; then parameter constraints are applied. -/
def PolicyEngine.check (roles : List (String × RoleConfig))
    (identity : Identity) (action : String) (params : Params) : PolicyResult :=
  let role_name := identity.role
  match roles.lookup role_name with
  | none =>
    { allowed := false, reason := unknownRoleReason role_name, role := role_name }
  | some role_cfg =>
    if role_cfg.denied_actions.contains action then
      { allowed := false, reason := explicitDenyReason action role_name
        role := role_name }
    else if !(role_cfg.allowed_actions.contains "*") &&
        !(role_cfg.allowed_actions.contains action) then
      { allowed := false
        reason := notAllowedReason action role_name role_cfg.allowed_actions
        role := role_name }
    else
      match applyParameterConstraints role_cfg.parameter_constraints action params with
      | Except.error e =>
        { allowed := false, reason := e, role := role_name }
      | Except.ok sanitized =>
        { allowed := true, reason := permittedReason action role_name
          sanitized_params := sanitized, role := role_name }

/-- `rate_limiter._WINDOW_SECONDS`. -/
def WINDOW_SECONDS : Int := 60

/-- In-memory rate limiter state: one timestamp window per user id. -/
structure RateLimiterState where
  windows : List (String × List Int) := []
deriving DecidableEq, Repr

/-- `RateLimiter._get_window` (read side): a user with no entry has an
empty window. -/
def RateLimiterState.getWindow (st : RateLimiterState) (user_id : String) :
    List Int :=
  (st.windows.lookup user_id).getD []

/-- Store a user's window (the mutation side of the deque operations). -/
def RateLimiterState.setWindow (st : RateLimiterState) (user_id : String)
    (w : List Int) : RateLimiterState :=
  ⟨(user_id, w) :: st.windows.filter (fun p => !(p.1 == user_id))⟩

/-- `RateLimiter._prune`: pop timestamps strictly older than the cutoff
from the front of the (oldest-first) window. -/
def prune (cutoff : Int) : List Int → List Int
  | [] => []
  | t :: ts => if t < cutoff then prune cutoff ts else t :: ts

/-- `RateLimiter.check`: prune the user's window, then admit iff the
remaining count is below the role's limit (default 10). Pruning mutates
the stored window, so the updated state is returned too. -/
def RateLimiter.check (st : RateLimiterState) (now : Int)
    (user_id role : String) (roles_config : List (String × RoleConfig)) :
    Bool × RateLimiterState :=
  let role_cfg := (roles_config.lookup role).getD {}
  let limit := role_cfg.rate_limit.getD 10
  let pruned := prune (now - WINDOW_SECONDS) (st.getWindow user_id)
  (decide (pruned.length < limit), st.setWindow user_id pruned)

/-- `RateLimiter.record`: append the current timestamp to the user's
window (no pruning). -/
def RateLimiter.record (st : RateLimiterState) (now : Int)
    (user_id : String) : RateLimiterState :=
  st.setWindow user_id (st.getWindow user_id ++ [now])

/-- What the HTTP layer did for one gateway call: the three failure shapes
`send_message` distinguishes, or a response with status, body and the
parsed JSON fields (`raw` is the stringified whole body). -/
inductive GatewayOutcome where
  | connectionFailure (detail : String)
  | timeoutFailure (detail : String)
  | httpResponse (status : Nat) (body : String)
      (reply text message : Option String) (raw : String)
deriving DecidableEq, Repr

/-- Python `a or b` over an optional string: `none` and `""` are falsy. -/
def orFalsy (v : Option String) (fallback : String) : String :=
  match v with
  | some s => if s = "" then fallback else s
  | none => fallback

/-- `openclaw_client._TIMEOUT_SECONDS`. -/
def TIMEOUT_SECONDS : Int := 120

/-- `OpenClawClient.send_message`: statuses at or above 400 and the two
transport failures become errors; otherwise the first truthy of
`reply`/`text`/`message` is returned, falling back to the stringified
body. -/
def OpenClawClient.sendMessage (gateway_url : String) (timeout : Int)
    (gw : GatewayOutcome) (_message : String) : Except String String :=
  match gw with
  | GatewayOutcome.httpResponse status body reply text msg raw =>
    if status ≥ 400 then
      Except.error ("OpenClaw gateway returned HTTP " ++ toString status ++
        ": " ++ body.take 200)
    else
      Except.ok (orFalsy reply (orFalsy text (orFalsy msg raw)))
  | GatewayOutcome.connectionFailure detail =>
    Except.error ("Cannot reach OpenClaw gateway at " ++ gateway_url ++
      ": " ++ detail)
  | GatewayOutcome.timeoutFailure detail =>
    Except.error ("OpenClaw gateway timed out after " ++ toString timeout ++
      "s: " ++ detail)

/-- The action-specific templates of `_build_openclaw_message`; `none`
when the action has no template or a referenced field is missing from the
bag (Python `KeyError` on `format`). -/
def renderTemplate (action : String) (p : Params) : Option String :=
  match action with
  | "search_web" => p.query.map (fun q => "Search the web for: " ++ q)
  | "read_file" => p.path.map (fun path => "Read the file at path: " ++ path)
  | "write_file" =>
    match p.path, p.content with
    | some path, some content =>
      some ("Write to file at path: " ++ path ++ "\n\nContent:\n" ++ content)
    | _, _ => none
  | "run_code" =>
    match p.language, p.code with
    | some lang, some code =>
      some ("Run the following " ++ lang ++ " code:\n```" ++ lang ++ "\n" ++
        code ++ "\n```")
    | _, _ => none
  | "run_analysis" =>
    p.description.map (fun d => "Run analysis: " ++ d)
  | "get_status" =>
    some "What is the current status of the agent and workspace?"
  | "send_message" =>
    match p.target, p.content with
    | some target, some content =>
      some ("Send this message to " ++ target ++ ": " ++ content)
    | _, _ => none
  | "fetch_url" =>
    p.url.map (fun u => "Fetch and summarize the content at this URL: " ++ u)
  | _ => none

/-- The present key/value pairs of a bag, in field-declaration order
(stands in for Python dict iteration order in the generic fallback). -/
def Params.items (p : Params) : List (String × String) :=
  (match p.timeout_seconds with
   | some t => [("timeout_seconds", toString t)] | none => []) ++
  (match p.language with | some v => [("language", v)] | none => []) ++
  (match p.content with | some v => [("content", v)] | none => []) ++
  (match p.path with | some v => [("path", v)] | none => []) ++
  (match p.url with | some v => [("url", v)] | none => []) ++
  (match p.query with | some v => [("query", v)] | none => []) ++
  (match p.code with | some v => [("code", v)] | none => []) ++
  (match p.description with | some v => [("description", v)] | none => []) ++
  (match p.target with | some v => [("target", v)] | none => [])

/-- `SkillRouter._build_openclaw_message`: action template when it applies,
otherwise the generic key/value rendering. -/
def buildOpenClawMessage (action : String) (params : Params) : String :=
  match renderTemplate action params with
  | some m => m
  | none =>
    let items := params.items
    if items.isEmpty then "Action: " ++ action
    else
      "Action: " ++ action ++ "\nParameters:\n" ++
        String.intercalate "\n"
          (items.map (fun kv => "  " ++ kv.1 ++ ": " ++ kv.2))

/-- The identity-failure response of `dispatch`. -/
def identityFailureResponse (exc action slack_user_id : String) : SkillResponse :=
  { allowed := false
    response := "⛔ Unable to verify your identity. Please contact an admin."
    role := "unknown", reason := exc, action := action
    slack_user_id := slack_user_id }

/-- The rate-limit denial response of `dispatch`. -/
def rateLimitResponse (role : String) (limit : Nat)
    (action slack_user_id : String) : SkillResponse :=
  { allowed := false
    response := "⏱️ Slow down — you\x27ve hit the rate limit for your role (*" ++
      role ++ "*: " ++ toString limit ++ " requests/min). Try again in a moment."
    role := role, reason := "Rate limit exceeded", action := action
    slack_user_id := slack_user_id }

/-- `SkillRouter.dispatch`: resolve identity, check the rate limit, check
policy, and only then record the request and call the gateway. The
resolver outcome and the gateway outcome are explicit inputs; the updated
rate-limiter state is returned with the response. -/
def SkillRouter.dispatch (roles_config : List (String × RoleConfig))
    (resolveResult : Except String Identity)
    (gateway_url : String) (gw : GatewayOutcome)
    (st : RateLimiterState) (now : Int)
    (slack_user_id action : String) (params : Params) :
    SkillResponse × RateLimiterState :=
  match resolveResult with
  | Except.error exc =>
    (identityFailureResponse exc action slack_user_id, st)
  | Except.ok identity =>
    let checked := RateLimiter.check st now slack_user_id identity.role roles_config
    if !checked.1 then
      let role_cfg := (roles_config.lookup identity.role).getD {}
      let limit := role_cfg.rate_limit.getD 10
      (rateLimitResponse identity.role limit action slack_user_id, checked.2)
    else
      let policy_result := PolicyEngine.check roles_config identity action params
      if !policy_result.allowed then
        ({ allowed := false, response := "🚫 " ++ policy_result.reason
           role := identity.role, reason := policy_result.reason
           action := action, slack_user_id := slack_user_id }, checked.2)
      else
        let st2 := RateLimiter.record checked.2 now slack_user_id
        let openclaw_message := buildOpenClawMessage action policy_result.sanitized_params
        match OpenClawClient.sendMessage gateway_url TIMEOUT_SECONDS gw openclaw_message with
        | Except.error exc =>
          ({ allowed := true
             response := "⚠️ Action was approved but OpenClaw returned an error: " ++ exc
             role := identity.role, reason := "OpenClaw execution error"
             action := action, slack_user_id := slack_user_id }, st2)
        | Except.ok openclaw_response =>
          ({ allowed := true, response := openclaw_response
             role := identity.role, reason := policy_result.reason
             action := action, slack_user_id := slack_user_id }, st2)

/-! ### Shared lemmas -/

/-- A string is a substring of any enclosing concatenation. -/
theorem strContains_append_middle (a mid b : String) :
    strContains (a ++ mid ++ b) mid = true := by
  unfold strContains
  rw [decide_eq_true_eq, String.data_append, String.data_append]
  exact List.infix_append a.data mid.data b.data

/-! ### C1 -/

/-- C1: whenever the requested action is in the role's denied-action set,
`PolicyEngine.check` denies with the explicit-denial reason, regardless of
the allow list (including a wildcard): the denied-set check runs first. -/
theorem denied_action_overrides_allow (roles : List (String × RoleConfig))
    (identity : Identity) (action : String) (params : Params)
    (role_cfg : RoleConfig)
    (hlook : roles.lookup identity.role = some role_cfg)
    (hden : role_cfg.denied_actions.contains action = true) :
    (PolicyEngine.check roles identity action params).allowed = false ∧
    (PolicyEngine.check roles identity action params).reason =
      explicitDenyReason action identity.role := by
  unfold PolicyEngine.check
  simp only [hlook]
  have hmem : action ∈ role_cfg.denied_actions := by simpa using hden
  simp [hmem]

/-- C1 witness: a role that lists `run_code` both in its denied set and in
its allow list together with the wildcard still gets denied. -/
theorem denied_action_overrides_allow_witness :
    (PolicyEngine.check
      [("operator",
        { allowed_actions := ["*", "run_code"], denied_actions := ["run_code"] })]
      { slack_user_id := "U1", role := "operator" } "run_code" {}).allowed = false ∧
    (PolicyEngine.check
      [("operator",
        { allowed_actions := ["*", "run_code"], denied_actions := ["run_code"] })]
      { slack_user_id := "U1", role := "operator" } "run_code" {}).reason =
      explicitDenyReason "run_code" "operator" :=
  denied_action_overrides_allow _ _ _ _ _ (by rfl) (by rfl)

/-! ### C7 -/

/-- C7: an identity whose role has no entry in the roles configuration is
always denied, for every action and parameter bag, with a reason that
contains the unknown role name. -/
theorem unknown_role_always_denies (roles : List (String × RoleConfig))
    (identity : Identity) (action : String) (params : Params)
    (hmiss : roles.lookup identity.role = none) :
    (PolicyEngine.check roles identity action params).allowed = false ∧
    (PolicyEngine.check roles identity action params).reason =
      unknownRoleReason identity.role ∧
    strContains (PolicyEngine.check roles identity action params).reason
      identity.role = true := by
  unfold PolicyEngine.check
  simp only [hmiss]
  refine ⟨by trivial, by trivial, ?_⟩
  show strContains (unknownRoleReason identity.role) identity.role = true
  unfold unknownRoleReason
  exact strContains_append_middle "Unknown role \x27" identity.role
    "\x27. Contact an admin."

/-- C7 witness: a concrete unresolvable role is denied and the reason
names it. -/
theorem unknown_role_always_denies_witness :
    (PolicyEngine.check [("admin", {})]
      { slack_user_id := "U9", role := "ghost" } "search_web" {}).allowed = false ∧
    (PolicyEngine.check [("admin", {})]
      { slack_user_id := "U9", role := "ghost" } "search_web" {}).reason =
      unknownRoleReason "ghost" ∧
    strContains (PolicyEngine.check [("admin", {})]
      { slack_user_id := "U9", role := "ghost" } "search_web" {}).reason
      "ghost" = true :=
  unknown_role_always_denies _ _ _ _ (by rfl)

/-! ### C8 -/

/-- C8: `resolve` is a total function of the loaded map: the empty
identifier and identifiers absent from the map get the configured default
role, and a non-empty identifier present in the map gets its mapped role. -/
theorem resolve_default_role (role_map : List (String × String))
    (default_role uid mapped : String) :
    (uid = "" →
      IdentityResolver.resolve role_map default_role uid =
        { slack_user_id := "", role := default_role }) ∧
    (role_map.lookup uid = none →
      (IdentityResolver.resolve role_map default_role uid).role = default_role) ∧
    (uid ≠ "" → role_map.lookup uid = some mapped →
      (IdentityResolver.resolve role_map default_role uid).role = mapped) := by
  refine ⟨fun h => ?_, fun h => ?_, fun h h2 => ?_⟩
  · simp [IdentityResolver.resolve, h]
  · unfold IdentityResolver.resolve
    by_cases he : uid = "" <;> simp [he, h]
  · simp [IdentityResolver.resolve, h, h2]

/-- C8 witness: with the map `{U1 ↦ admin}` and default role `readonly`,
the empty id and an unknown id resolve to `readonly`, and `U1` resolves to
`admin`. -/
theorem resolve_default_role_witness :
    IdentityResolver.resolve [("U1", "admin")] "readonly" "" =
      { slack_user_id := "", role := "readonly" } ∧
    (IdentityResolver.resolve [("U1", "admin")] "readonly" "U2").role =
      "readonly" ∧
    (IdentityResolver.resolve [("U1", "admin")] "readonly" "U1").role =
      "admin" :=
  ⟨(resolve_default_role [("U1", "admin")] "readonly" "" "admin").1 rfl,
   (resolve_default_role [("U1", "admin")] "readonly" "U2" "admin").2.1 (by rfl),
   (resolve_default_role [("U1", "admin")] "readonly" "U1" "admin").2.2
     (by decide) (by rfl)⟩

/-! ### Helper lemmas for the constraint layer -/

/-- Appending anything to a non-empty string stays non-empty. -/
theorem append_ne_empty_left (s t : String) (h : s ≠ "") : s ++ t ≠ "" := by
  intro he
  apply h
  have hd : s.data ++ t.data = [] := by
    rw [← String.data_append, he]
  have hs : s.data = [] := (List.append_eq_nil.mp hd).1
  cases s with
  | mk data =>
    cases hs
    rfl

/-- The language-rejection reason is never empty. -/
theorem languageReason_ne_empty (lang : String) (langs : List String) :
    languageReason lang langs ≠ "" := by
  unfold languageReason
  apply append_ne_empty_left
  apply append_ne_empty_left
  apply append_ne_empty_left
  apply append_ne_empty_left
  decide

/-- The size-rejection reason is never empty. -/
theorem sizeReason_ne_empty (max_b : Nat) (action : String) :
    sizeReason max_b action ≠ "" := by
  unfold sizeReason
  apply append_ne_empty_left
  apply append_ne_empty_left
  apply append_ne_empty_left
  apply append_ne_empty_left
  decide

/-- The blocked-path reason is never empty. -/
theorem pathReason_ne_empty (path : String) : pathReason path ≠ "" := by
  unfold pathReason
  apply append_ne_empty_left
  apply append_ne_empty_left
  decide

/-- The blocked-pattern reason is never empty. -/
theorem patternReason_ne_empty (url pattern : String) :
    patternReason url pattern ≠ "" := by
  unfold patternReason
  apply append_ne_empty_left
  apply append_ne_empty_left
  apply append_ne_empty_left
  apply append_ne_empty_left
  decide

/-- Any error produced by the language check is its (non-empty) reason. -/
theorem languageCheck_error_ne_empty (ac : ConstraintSet) (p : Params)
    (e : String) (h : languageCheck ac p = Except.error e) : e ≠ "" := by
  unfold languageCheck at h
  rcases hal : ac.allowed_languages with _ | langs <;> rw [hal] at h <;>
    dsimp only at h
  · exact Except.noConfusion h
  · split at h
    · rw [Except.error.injEq] at h
      subst h
      exact languageReason_ne_empty _ _
    · exact Except.noConfusion h

/-- Any error produced by the size check is its (non-empty) reason. -/
theorem sizeCheck_error_ne_empty (ac : ConstraintSet) (action : String)
    (p : Params) (e : String) (h : sizeCheck ac action p = Except.error e) :
    e ≠ "" := by
  unfold sizeCheck at h
  rcases hal : ac.max_size_bytes with _ | max_b <;> rw [hal] at h <;>
    dsimp only at h
  · exact Except.noConfusion h
  · split at h
    · rw [Except.error.injEq] at h
      subst h
      exact sizeReason_ne_empty _ _
    · exact Except.noConfusion h

/-- Any error produced by the blocked-path check is its (non-empty)
reason. -/
theorem pathsCheck_error_ne_empty (ac : ConstraintSet) (p : Params)
    (e : String) (h : pathsCheck ac p = Except.error e) : e ≠ "" := by
  unfold pathsCheck at h
  rcases hal : ac.blocked_paths with _ | blocked <;> rw [hal] at h <;>
    dsimp only at h
  · exact Except.noConfusion h
  · rcases hf : blocked.find? (fun b => strContains (p.path.getD "") b) with _ | b <;>
      rw [hf] at h <;> dsimp only at h
    · exact Except.noConfusion h
    · rw [Except.error.injEq] at h
      subst h
      exact pathReason_ne_empty _

/-- Any error produced by the blocked-pattern check is its (non-empty)
reason. -/
theorem patternsCheck_error_ne_empty (ac : ConstraintSet) (p : Params)
    (e : String) (h : patternsCheck ac p = Except.error e) : e ≠ "" := by
  unfold patternsCheck at h
  rcases hal : ac.blocked_patterns with _ | blocked <;> rw [hal] at h <;>
    dsimp only at h
  · exact Except.noConfusion h
  · rcases hf : blocked.find? (fun b => strContains (p.url.getD "") b) with _ | b <;>
      rw [hf] at h <;> dsimp only at h
    · exact Except.noConfusion h
    · rw [Except.error.injEq] at h
      subst h
      exact patternReason_ne_empty _ _

/-- An empty constraint dict makes every individual check pass. -/
theorem isEmpty_all_checks_ok (ac : ConstraintSet) (action : String)
    (p : Params) (h : ac.isEmpty = true) :
    languageCheck ac p = Except.ok () ∧ sizeCheck ac action p = Except.ok () ∧
    pathsCheck ac p = Except.ok () ∧ patternsCheck ac p = Except.ok () := by
  unfold ConstraintSet.isEmpty at h
  simp only [Bool.and_eq_true, Option.isNone_iff_eq_none] at h
  obtain ⟨⟨⟨⟨h1, h2⟩, h3⟩, h4⟩, h5⟩ := h
  refine ⟨?_, ?_, ?_, ?_⟩ <;>
    simp [languageCheck, sizeCheck, pathsCheck, patternsCheck, h2, h3, h4, h5]

/-- When the role exists, the action is not in its denied set, and the
allow list covers it, `PolicyEngine.check` is decided by the parameter
constraints alone. -/
theorem check_reaches_constraints (roles : List (String × RoleConfig))
    (identity : Identity) (action : String) (params : Params)
    (role_cfg : RoleConfig)
    (hlook : roles.lookup identity.role = some role_cfg)
    (hden : role_cfg.denied_actions.contains action = false)
    (hallow : (role_cfg.allowed_actions.contains "*" ||
      role_cfg.allowed_actions.contains action) = true) :
    PolicyEngine.check roles identity action params =
      match applyParameterConstraints role_cfg.parameter_constraints action params with
      | Except.error e =>
        { allowed := false, reason := e, role := identity.role }
      | Except.ok sanitized =>
        { allowed := true, reason := permittedReason action identity.role
          sanitized_params := sanitized, role := identity.role } := by
  unfold PolicyEngine.check
  simp only [hlook]
  have h1 : ¬ action ∈ role_cfg.denied_actions := by simpa using hden
  have h2 : "*" ∈ role_cfg.allowed_actions ∨ action ∈ role_cfg.allowed_actions := by
    simpa using hallow
  rcases h2 with h2 | h2 <;> simp [h1, h2]

/-! ### C3 -/

/-- C3: with a constraint set configured for the action (and the action
otherwise permitted), a violation of the `allowed_languages` whitelist,
the `max_size_bytes` limit, a `blocked_paths` substring, or a
`blocked_patterns` substring makes `PolicyEngine.check` deny with that
check's non-empty reason, and evaluation short-circuits at the first
violated hard constraint (in source order: language, size, paths,
patterns, each later check only reachable when the earlier ones pass). -/
theorem hard_constraint_short_circuits (roles : List (String × RoleConfig))
    (identity : Identity) (action : String) (params : Params)
    (role_cfg : RoleConfig) (ac : ConstraintSet)
    (hlook : roles.lookup identity.role = some role_cfg)
    (hden : role_cfg.denied_actions.contains action = false)
    (hallow : (role_cfg.allowed_actions.contains "*" ||
      role_cfg.allowed_actions.contains action) = true)
    (hac : role_cfg.parameter_constraints.lookup action = some ac) :
    (∀ e, languageCheck ac (clampTimeout ac params) = Except.error e →
      (PolicyEngine.check roles identity action params).allowed = false ∧
      (PolicyEngine.check roles identity action params).reason = e ∧ e ≠ "") ∧
    (∀ e, languageCheck ac (clampTimeout ac params) = Except.ok () →
      sizeCheck ac action (clampTimeout ac params) = Except.error e →
      (PolicyEngine.check roles identity action params).allowed = false ∧
      (PolicyEngine.check roles identity action params).reason = e ∧ e ≠ "") ∧
    (∀ e, languageCheck ac (clampTimeout ac params) = Except.ok () →
      sizeCheck ac action (clampTimeout ac params) = Except.ok () →
      pathsCheck ac (clampTimeout ac params) = Except.error e →
      (PolicyEngine.check roles identity action params).allowed = false ∧
      (PolicyEngine.check roles identity action params).reason = e ∧ e ≠ "") ∧
    (∀ e, languageCheck ac (clampTimeout ac params) = Except.ok () →
      sizeCheck ac action (clampTimeout ac params) = Except.ok () →
      pathsCheck ac (clampTimeout ac params) = Except.ok () →
      patternsCheck ac (clampTimeout ac params) = Except.error e →
      (PolicyEngine.check roles identity action params).allowed = false ∧
      (PolicyEngine.check roles identity action params).reason = e ∧ e ≠ "") := by
  have hred := check_reaches_constraints roles identity action params role_cfg
    hlook hden hallow
  refine ⟨?_, ?_, ?_, ?_⟩
  · intro e he
    have hne : ac.isEmpty = false := by
      cases hie : ac.isEmpty
      · rfl
      · rw [(isEmpty_all_checks_ok ac action (clampTimeout ac params) hie).1] at he
        exact Except.noConfusion he
    have hap : applyParameterConstraints role_cfg.parameter_constraints action params
        = Except.error e := by
      simp [applyParameterConstraints, hac, hne, he]
    rw [hred, hap]
    exact ⟨rfl, rfl, languageCheck_error_ne_empty _ _ _ he⟩
  · intro e hl he
    have hne : ac.isEmpty = false := by
      cases hie : ac.isEmpty
      · rfl
      · rw [(isEmpty_all_checks_ok ac action (clampTimeout ac params) hie).2.1] at he
        exact Except.noConfusion he
    have hap : applyParameterConstraints role_cfg.parameter_constraints action params
        = Except.error e := by
      simp [applyParameterConstraints, hac, hne, hl, he]
    rw [hred, hap]
    exact ⟨rfl, rfl, sizeCheck_error_ne_empty _ _ _ _ he⟩
  · intro e hl hs he
    have hne : ac.isEmpty = false := by
      cases hie : ac.isEmpty
      · rfl
      · rw [(isEmpty_all_checks_ok ac action (clampTimeout ac params) hie).2.2.1] at he
        exact Except.noConfusion he
    have hap : applyParameterConstraints role_cfg.parameter_constraints action params
        = Except.error e := by
      simp [applyParameterConstraints, hac, hne, hl, hs, he]
    rw [hred, hap]
    exact ⟨rfl, rfl, pathsCheck_error_ne_empty _ _ _ he⟩
  · intro e hl hs hp he
    have hne : ac.isEmpty = false := by
      cases hie : ac.isEmpty
      · rfl
      · rw [(isEmpty_all_checks_ok ac action (clampTimeout ac params) hie).2.2.2] at he
        exact Except.noConfusion he
    have hap : applyParameterConstraints role_cfg.parameter_constraints action params
        = Except.error e := by
      simp [applyParameterConstraints, hac, hne, hl, hs, hp, he]
    rw [hred, hap]
    exact ⟨rfl, rfl, patternsCheck_error_ne_empty _ _ _ he⟩

/-- C3 witness: a role allowing `run_code` with a python-only whitelist
denies a perl request with the language reason. -/
theorem hard_constraint_short_circuits_witness :
    (PolicyEngine.check
      [("dev", { allowed_actions := ["run_code"]
                 parameter_constraints :=
                   [("run_code", { allowed_languages := some ["python"] })] })]
      { slack_user_id := "U1", role := "dev" } "run_code"
      { language := some "perl" }).allowed = false ∧
    (PolicyEngine.check
      [("dev", { allowed_actions := ["run_code"]
                 parameter_constraints :=
                   [("run_code", { allowed_languages := some ["python"] })] })]
      { slack_user_id := "U1", role := "dev" } "run_code"
      { language := some "perl" }).reason = languageReason "perl" ["python"] ∧
    languageReason "perl" ["python"] ≠ "" :=
  (hard_constraint_short_circuits _ _ _ _ _ _ (by rfl) (by rfl) (by rfl)
    (by rfl)).1 (languageReason "perl" ["python"]) (by rfl)

/-! ### C6 -/

/-- C6: with `max_timeout_seconds` configured for an otherwise-permitted
action and every hard constraint passing, a `timeout_seconds` above the
maximum is clamped to exactly the maximum with the decision still
`allowed=true`, and a `timeout_seconds` at or below the maximum leaves the
whole bag unchanged — the timeout constraint alone never denies. -/
theorem timeout_clamped_never_denies (roles : List (String × RoleConfig))
    (identity : Identity) (action : String) (params : Params)
    (role_cfg : RoleConfig) (ac : ConstraintSet) (m t : Int)
    (hlook : roles.lookup identity.role = some role_cfg)
    (hden : role_cfg.denied_actions.contains action = false)
    (hallow : (role_cfg.allowed_actions.contains "*" ||
      role_cfg.allowed_actions.contains action) = true)
    (hac : role_cfg.parameter_constraints.lookup action = some ac)
    (hm : ac.max_timeout_seconds = some m)
    (ht : params.timeout_seconds = some t)
    (hl : languageCheck ac (clampTimeout ac params) = Except.ok ())
    (hs : sizeCheck ac action (clampTimeout ac params) = Except.ok ())
    (hp : pathsCheck ac (clampTimeout ac params) = Except.ok ())
    (hq : patternsCheck ac (clampTimeout ac params) = Except.ok ()) :
    (PolicyEngine.check roles identity action params).allowed = true ∧
    (m < t →
      (PolicyEngine.check roles identity action params).sanitized_params.timeout_seconds
        = some m) ∧
    (t ≤ m →
      (PolicyEngine.check roles identity action params).sanitized_params = params) := by
  have hne : ac.isEmpty = false := by
    unfold ConstraintSet.isEmpty
    simp [hm]
  have hap : applyParameterConstraints role_cfg.parameter_constraints action params
      = Except.ok (clampTimeout ac params) := by
    simp [applyParameterConstraints, hac, hne, hl, hs, hp, hq]
  have hred := check_reaches_constraints roles identity action params role_cfg
    hlook hden hallow
  rw [hred, hap]
  refine ⟨rfl, fun hmt => ?_, fun htm => ?_⟩
  · show (clampTimeout ac params).timeout_seconds = some m
    unfold clampTimeout
    rw [hm, ht]
    dsimp only
    rw [if_pos hmt]
  · show clampTimeout ac params = params
    unfold clampTimeout
    rw [hm, ht]
    dsimp only
    rw [if_neg (by omega)]

/-- C6 witness: a 500-second timeout against a 120-second maximum is
clamped to 120 and still allowed; a 100-second timeout is left alone. -/
theorem timeout_clamped_never_denies_witness :
    (PolicyEngine.check
      [("dev", { allowed_actions := ["run_code"]
                 parameter_constraints :=
                   [("run_code", { max_timeout_seconds := some 120 })] })]
      { slack_user_id := "U1", role := "dev" } "run_code"
      { timeout_seconds := some 500 }).allowed = true ∧
    (PolicyEngine.check
      [("dev", { allowed_actions := ["run_code"]
                 parameter_constraints :=
                   [("run_code", { max_timeout_seconds := some 120 })] })]
      { slack_user_id := "U1", role := "dev" } "run_code"
      { timeout_seconds := some 500 }).sanitized_params.timeout_seconds
      = some 120 ∧
    (PolicyEngine.check
      [("dev", { allowed_actions := ["run_code"]
                 parameter_constraints :=
                   [("run_code", { max_timeout_seconds := some 120 })] })]
      { slack_user_id := "U1", role := "dev" } "run_code"
      { timeout_seconds := some 100 }).sanitized_params
      = { timeout_seconds := some 100 } :=
  ⟨(timeout_clamped_never_denies _ _ _ _ _ _ 120 500 (by rfl) (by rfl) (by rfl)
      (by rfl) (by rfl) (by rfl) (by rfl) (by rfl) (by rfl) (by rfl)).1,
   (timeout_clamped_never_denies _ _ _ _ _ _ 120 500 (by rfl) (by rfl) (by rfl)
      (by rfl) (by rfl) (by rfl) (by rfl) (by rfl) (by rfl) (by rfl)).2.1
      (by decide),
   (timeout_clamped_never_denies _ _ _ _ _ _ 120 100 (by rfl) (by rfl) (by rfl)
      (by rfl) (by rfl) (by rfl) (by rfl) (by rfl) (by rfl) (by rfl)).2.2
      (by decide)⟩

/-! ### C10 -/

/-- `clampTimeout` never touches the `language` field. -/
theorem clampTimeout_language (ac : ConstraintSet) (p : Params) :
    (clampTimeout ac p).language = p.language := by
  unfold clampTimeout
  cases ac.max_timeout_seconds
  · rfl
  · cases p.timeout_seconds
    · rfl
    · dsimp only
      split <;> rfl

/-- C10: when the bag's `language` field is absent or the empty string,
the `allowed_languages` whitelist configured for the action has no effect:
constraint evaluation is identical to evaluation without the whitelist,
so the whitelist check can never deny such a request. -/
theorem language_whitelist_skipped_when_absent (ac : ConstraintSet)
    (ws : List String) (action : String) (params : Params)
    (hlang : params.language = none ∨ params.language = some "") :
    applyParameterConstraints
      [(action, { ac with allowed_languages := some ws })] action params =
    applyParameterConstraints
      [(action, { ac with allowed_languages := none })] action params := by
  have hgetD : params.language.getD "" = "" := by
    rcases hlang with h | h <;> rw [h] <;> rfl
  have hlk1 : List.lookup action
      [(action, ({ ac with allowed_languages := some ws } : ConstraintSet))]
      = some { ac with allowed_languages := some ws } := by simp
  have hlk2 : List.lookup action
      [(action, ({ ac with allowed_languages := none } : ConstraintSet))]
      = some { ac with allowed_languages := none } := by simp
  have hne1 : ({ ac with allowed_languages := some ws } : ConstraintSet).isEmpty
      = false := by
    unfold ConstraintSet.isEmpty
    simp
  have hlc1 : languageCheck { ac with allowed_languages := some ws }
      (clampTimeout { ac with allowed_languages := some ws } params)
      = Except.ok () := by
    unfold languageCheck
    dsimp only
    rw [clampTimeout_language]
    rw [hgetD]
    simp
  unfold applyParameterConstraints
  rw [hlk1, hlk2]
  dsimp only
  rw [if_neg (by simp [hne1])]
  cases hie : ({ ac with allowed_languages := none } : ConstraintSet).isEmpty
  · rw [if_neg (by simp)]
    rw [hlc1]
    rfl
  · rw [if_pos (by simp)]
    have hflds := hie
    unfold ConstraintSet.isEmpty at hflds
    simp only [Bool.and_eq_true, Option.isNone_iff_eq_none] at hflds
    obtain ⟨⟨⟨⟨h1, _⟩, h3⟩, h4⟩, h5⟩ := hflds
    have hs1 : clampTimeout { ac with allowed_languages := some ws } params
        = params := by
      unfold clampTimeout
      dsimp only
      rw [h1]
    have hlc1p : languageCheck { ac with allowed_languages := some ws } params
        = Except.ok () := by
      unfold languageCheck
      dsimp only
      rw [hgetD]
      simp
    have hsz : sizeCheck { ac with allowed_languages := some ws } action params
        = Except.ok () := by
      unfold sizeCheck
      dsimp only
      rw [h3]
    have hpa : pathsCheck { ac with allowed_languages := some ws } params
        = Except.ok () := by
      unfold pathsCheck
      dsimp only
      rw [h4]
    have hpt : patternsCheck { ac with allowed_languages := some ws } params
        = Except.ok () := by
      unfold patternsCheck
      dsimp only
      rw [h5]
    rw [hs1, hlc1p, hsz, hpa, hpt]

/-- C10 witness: a bag with no language at all passes a python-only
whitelist exactly as if the whitelist were not configured. -/
theorem language_whitelist_skipped_when_absent_witness :
    applyParameterConstraints
      [("run_code",
        { max_size_bytes := some 10, allowed_languages := some ["python"] })]
      "run_code" { content := some "hi" } =
    applyParameterConstraints
      [("run_code",
        { max_size_bytes := some 10, allowed_languages := none })]
      "run_code" { content := some "hi" } :=
  language_whitelist_skipped_when_absent
    { max_size_bytes := some 10 } ["python"] "run_code"
    { content := some "hi" } (Or.inl rfl)

/-! ### Rate limiter and dispatch lemmas -/

/-- Reading back the window just stored. -/
theorem getWindow_setWindow_self (st : RateLimiterState) (u : String)
    (w : List Int) : (st.setWindow u w).getWindow u = w := by
  unfold RateLimiterState.setWindow RateLimiterState.getWindow
  simp [List.lookup]

/-- The state returned by `RateLimiter.check` stores the pruned window. -/
theorem check_snd (st : RateLimiterState) (now : Int) (uid role : String)
    (roles_config : List (String × RoleConfig)) :
    (RateLimiter.check st now uid role roles_config).2 =
      st.setWindow uid (prune (now - WINDOW_SECONDS) (st.getWindow uid)) := rfl

/-- The admission bit of `RateLimiter.check` compares the pruned count to
the role's limit. -/
theorem check_fst (st : RateLimiterState) (now : Int) (uid role : String)
    (roles_config : List (String × RoleConfig)) :
    (RateLimiter.check st now uid role roles_config).1 =
      decide ((prune (now - WINDOW_SECONDS) (st.getWindow uid)).length <
        (((roles_config.lookup role).getD {}).rate_limit.getD 10)) := rfl

/-- Pruning keeps a window whose entries are all at least the cutoff. -/
theorem prune_of_all_ge (cutoff : Int) (l : List Int)
    (h : ∀ x ∈ l, ¬ x < cutoff) : prune cutoff l = l := by
  cases l with
  | nil => rfl
  | cons t ts =>
    unfold prune
    rw [if_neg (h t (by simp))]

/-- Pruning empties a window whose entries are all below the cutoff. -/
theorem prune_of_all_lt (cutoff : Int) (l : List Int)
    (h : ∀ x ∈ l, x < cutoff) : prune cutoff l = [] := by
  induction l with
  | nil => rfl
  | cons t ts ih =>
    unfold prune
    rw [if_pos (h t (by simp))]
    exact ih (fun x hx => h x (by simp [hx]))

/-- A window of timestamps all equal to the current instant is untouched
by pruning at that instant. -/
theorem prune_replicate_now (now : Int) (m : Nat) :
    prune (now - WINDOW_SECONDS) (List.replicate m now) = List.replicate m now := by
  apply prune_of_all_ge
  intro x hx
  rw [List.eq_of_mem_replicate hx]
  unfold WINDOW_SECONDS
  omega

/-- The admission segment of `dispatch` (steps 2–4 of the source: rate
check, policy check, then record on approval). This whole segment
contains no `await`, so under the asyncio event loop it executes
atomically relative to other dispatch calls; the awaits of `dispatch`
(identity resolution before it, the gateway call after it) do not touch
the limiter state. -/
def admissionBlock (roles_config : List (String × RoleConfig))
    (identity : Identity) (slack_user_id action : String) (params : Params)
    (now : Int) (st : RateLimiterState) : Bool × RateLimiterState :=
  let checked := RateLimiter.check st now slack_user_id identity.role roles_config
  if !checked.1 then (false, checked.2)
  else
    let policy_result := PolicyEngine.check roles_config identity action params
    if !policy_result.allowed then (false, checked.2)
    else (true, RateLimiter.record checked.2 now slack_user_id)

/-- On a successful resolve, `dispatch` transforms the limiter state
exactly as its admission segment does. -/
theorem dispatch_ok_snd (roles_config : List (String × RoleConfig))
    (identity : Identity) (gateway_url : String) (gw : GatewayOutcome)
    (st : RateLimiterState) (now : Int) (uid action : String) (params : Params) :
    (SkillRouter.dispatch roles_config (Except.ok identity) gateway_url gw st
      now uid action params).2 =
    (admissionBlock roles_config identity uid action params now st).2 := by
  unfold SkillRouter.dispatch admissionBlock
  dsimp only
  cases hc : (RateLimiter.check st now uid identity.role roles_config).1
  · simp
  · cases hp : (PolicyEngine.check roles_config identity action params).allowed
    · simp [hp]
    · simp only [hp, Bool.not_true, Bool.false_eq_true, if_false]
      cases OpenClawClient.sendMessage gateway_url TIMEOUT_SECONDS gw
        (buildOpenClawMessage action
          (PolicyEngine.check roles_config identity action params).sanitized_params) <;>
        simp

/-- On a successful resolve, the `allowed` bit of the dispatch response is
exactly the admission segment's verdict (an execution failure after
approval still reports `allowed=true`). -/
theorem dispatch_ok_allowed (roles_config : List (String × RoleConfig))
    (identity : Identity) (gateway_url : String) (gw : GatewayOutcome)
    (st : RateLimiterState) (now : Int) (uid action : String) (params : Params) :
    (SkillRouter.dispatch roles_config (Except.ok identity) gateway_url gw st
      now uid action params).1.allowed =
    (admissionBlock roles_config identity uid action params now st).1 := by
  unfold SkillRouter.dispatch admissionBlock
  dsimp only
  cases hc : (RateLimiter.check st now uid identity.role roles_config).1
  · simp [rateLimitResponse]
  · cases hp : (PolicyEngine.check roles_config identity action params).allowed
    · simp [hp]
    · simp only [hp, Bool.not_true, Bool.false_eq_true, if_false]
      cases OpenClawClient.sendMessage gateway_url TIMEOUT_SECONDS gw
        (buildOpenClawMessage action
          (PolicyEngine.check roles_config identity action params).sanitized_params) <;>
        simp

/-- What the admission segment reports and how it changes the user's
window: admitted iff rate check and policy both pass; the window is the
pruned one, with the current timestamp appended exactly on admission. -/
theorem admissionBlock_spec (roles_config : List (String × RoleConfig))
    (identity : Identity) (uid action : String) (params : Params)
    (now : Int) (st : RateLimiterState) :
    (admissionBlock roles_config identity uid action params now st).1 =
      ((RateLimiter.check st now uid identity.role roles_config).1 &&
        (PolicyEngine.check roles_config identity action params).allowed) ∧
    (admissionBlock roles_config identity uid action params now st).2.getWindow uid =
      (if (admissionBlock roles_config identity uid action params now st).1 then
        prune (now - WINDOW_SECONDS) (st.getWindow uid) ++ [now]
      else
        prune (now - WINDOW_SECONDS) (st.getWindow uid)) := by
  unfold admissionBlock
  dsimp only
  cases hc : (RateLimiter.check st now uid identity.role roles_config).1
  · simp [check_snd, getWindow_setWindow_self]
  · cases hp : (PolicyEngine.check roles_config identity action params).allowed
    · simp [hp, check_snd, getWindow_setWindow_self]
    · simp [hp, RateLimiter.record, check_snd, getWindow_setWindow_self]

/-! ### C4 -/

/-- C4: one dispatch call appends exactly one timestamp to the caller's
window when and only when both the rate-limit check and the policy check
pass; on an identity-resolution failure the limiter state is untouched,
and on a rate-limit or policy denial the window is only pruned (entries
can expire, none is added), so a denied request consumes no rate-limit
budget. -/
theorem dispatch_records_only_on_full_approval
    (roles_config : List (String × RoleConfig))
    (resolveResult : Except String Identity)
    (gateway_url : String) (gw : GatewayOutcome)
    (st : RateLimiterState) (now : Int) (uid action : String) (params : Params) :
    (match resolveResult with
     | Except.error _ =>
       (SkillRouter.dispatch roles_config resolveResult gateway_url gw st now
         uid action params).2 = st
     | Except.ok identity =>
       (SkillRouter.dispatch roles_config resolveResult gateway_url gw st now
         uid action params).2.getWindow uid =
         (if (RateLimiter.check st now uid identity.role roles_config).1 &&
             (PolicyEngine.check roles_config identity action params).allowed then
           prune (now - WINDOW_SECONDS) (st.getWindow uid) ++ [now]
         else
           prune (now - WINDOW_SECONDS) (st.getWindow uid)) : Prop) := by
  cases resolveResult with
  | error exc => rfl
  | ok identity =>
    have h1 := dispatch_ok_snd roles_config identity gateway_url gw st now uid
      action params
    have h2 := admissionBlock_spec roles_config identity uid action params now st
    dsimp only
    rw [h1, h2.2, h2.1]

/-! ### C5 -/

/-- `k` sequential dispatch calls for one user at one clock instant,
threading the limiter state and collecting the responses. -/
def dispatchN (roles_config : List (String × RoleConfig)) (identity : Identity)
    (gateway_url : String) (gw : GatewayOutcome) (now : Int)
    (uid action : String) (params : Params) :
    Nat → RateLimiterState → List SkillResponse × RateLimiterState
  | 0, st => ([], st)
  | k + 1, st =>
    let r := SkillRouter.dispatch roles_config (Except.ok identity) gateway_url
      gw st now uid action params
    let rest := dispatchN roles_config identity gateway_url gw now uid action
      params k r.2
    (r.1 :: rest.1, rest.2)

/-- Running `j` calls against a window of `m` same-instant timestamps with
`m + j` still within the role limit admits every call and grows the window
to `m + j` timestamps. -/
theorem dispatchN_under_limit (roles_config : List (String × RoleConfig))
    (identity : Identity) (gateway_url : String) (gw : GatewayOutcome)
    (now : Int) (uid action : String) (params : Params)
    (cfg : RoleConfig) (N : Nat)
    (hlk : roles_config.lookup identity.role = some cfg)
    (hN : cfg.rate_limit = some N)
    (hpol : (PolicyEngine.check roles_config identity action params).allowed = true) :
    ∀ j m st, st.getWindow uid = List.replicate m now → m + j ≤ N →
      (dispatchN roles_config identity gateway_url gw now uid action params j
        st).2.getWindow uid = List.replicate (m + j) now ∧
      ∀ r ∈ (dispatchN roles_config identity gateway_url gw now uid action
        params j st).1, r.allowed = true := by
  intro j
  induction j with
  | zero =>
    intro m st hw hle
    refine ⟨by simpa using hw, by simp [dispatchN]⟩
  | succ k ih =>
    intro m st hw hle
    have hcf : (RateLimiter.check st now uid identity.role roles_config).1 = true := by
      rw [check_fst, hw, prune_replicate_now]
      simp [hlk, hN]
      omega
    have hab := admissionBlock_spec roles_config identity uid action params now st
    have hab1 : (admissionBlock roles_config identity uid action params now st).1
        = true := by
      rw [hab.1, hcf, hpol]
      rfl
    have hab2 : (admissionBlock roles_config identity uid action params now
        st).2.getWindow uid = List.replicate (m + 1) now := by
      rw [hab.2, hab1, if_pos rfl, hw, prune_replicate_now]
      exact (List.replicate_succ' m now).symm
    have hst2 : (SkillRouter.dispatch roles_config (Except.ok identity)
        gateway_url gw st now uid action params).2.getWindow uid
        = List.replicate (m + 1) now := by
      rw [dispatch_ok_snd]
      exact hab2
    obtain ⟨ihw, ihall⟩ := ih (m + 1)
      (SkillRouter.dispatch roles_config (Except.ok identity) gateway_url gw st
        now uid action params).2 hst2 (by omega)
    unfold dispatchN
    dsimp only
    refine ⟨?_, ?_⟩
    · rw [ihw]
      have : m + 1 + k = m + (k + 1) := by omega
      rw [this]
    · intro r hr
      rcases List.mem_cons.mp hr with hr | hr
      · subst hr
        rw [dispatch_ok_allowed]
        exact hab1
      · exact ihall r hr

/-- The dispatch response on a failed rate check is the rate-limit
denial message for the role's configured limit. -/
theorem dispatch_rate_denied_fst (roles_config : List (String × RoleConfig))
    (identity : Identity) (gateway_url : String) (gw : GatewayOutcome)
    (st : RateLimiterState) (now : Int) (uid action : String) (params : Params)
    (hc : (RateLimiter.check st now uid identity.role roles_config).1 = false) :
    (SkillRouter.dispatch roles_config (Except.ok identity) gateway_url gw st
      now uid action params).1 =
    rateLimitResponse identity.role
      (((roles_config.lookup identity.role).getD {}).rate_limit.getD 10)
      action uid := by
  unfold SkillRouter.dispatch
  dsimp only
  rw [hc]
  rfl

/-- C5 (amended): with role limit `N ≥ 1` and the policy allowing the
action, `N` dispatch calls at one instant all succeed, the `(N+1)`-th call
at that instant is denied with the rate-limit reason, and a subsequent
call succeeds again once the clock has advanced strictly more than the
60-unit window past the recorded timestamps. (An advance of exactly the
window duration is not enough: pruning removes only entries strictly
older than the cutoff, see the counterexample.) -/
theorem rate_limit_sequence_behavior (roles_config : List (String × RoleConfig))
    (identity : Identity) (gateway_url : String) (gw : GatewayOutcome)
    (uid action : String) (params : Params) (cfg : RoleConfig) (N : Nat)
    (now later : Int)
    (hlk : roles_config.lookup identity.role = some cfg)
    (hN : cfg.rate_limit = some N)
    (hpos : 0 < N)
    (hpol : (PolicyEngine.check roles_config identity action params).allowed = true)
    (hlater : now + WINDOW_SECONDS < later) :
    (∀ r ∈ (dispatchN roles_config identity gateway_url gw now uid action
      params N {}).1, r.allowed = true) ∧
    (SkillRouter.dispatch roles_config (Except.ok identity) gateway_url gw
      (dispatchN roles_config identity gateway_url gw now uid action params N
        {}).2 now uid action params).1.allowed = false ∧
    (SkillRouter.dispatch roles_config (Except.ok identity) gateway_url gw
      (dispatchN roles_config identity gateway_url gw now uid action params N
        {}).2 now uid action params).1.reason = "Rate limit exceeded" ∧
    (SkillRouter.dispatch roles_config (Except.ok identity) gateway_url gw
      (SkillRouter.dispatch roles_config (Except.ok identity) gateway_url gw
        (dispatchN roles_config identity gateway_url gw now uid action params N
          {}).2 now uid action params).2
      later uid action params).1.allowed = true := by
  obtain ⟨hwN, hall⟩ := dispatchN_under_limit roles_config identity gateway_url
    gw now uid action params cfg N hlk hN hpol N 0 {} rfl (by omega)
  have hwN' : (dispatchN roles_config identity gateway_url gw now uid action
      params N {}).2.getWindow uid = List.replicate N now := by
    simpa using hwN
  have hcf : (RateLimiter.check (dispatchN roles_config identity gateway_url gw
      now uid action params N {}).2 now uid identity.role roles_config).1
      = false := by
    rw [check_fst, hwN', prune_replicate_now]
    simp [hlk, hN]
  have habf : (admissionBlock roles_config identity uid action params now
      (dispatchN roles_config identity gateway_url gw now uid action params N
        {}).2).1 = false := by
    rw [(admissionBlock_spec _ _ _ _ _ _ _).1, hcf]
    rfl
  have hstD : (SkillRouter.dispatch roles_config (Except.ok identity)
      gateway_url gw (dispatchN roles_config identity gateway_url gw now uid
        action params N {}).2 now uid action params).2.getWindow uid
      = List.replicate N now := by
    rw [dispatch_ok_snd, (admissionBlock_spec _ _ _ _ _ _ _).2, habf]
    rw [if_neg (by simp), hwN', prune_replicate_now]
  have hc2 : (RateLimiter.check (SkillRouter.dispatch roles_config
      (Except.ok identity) gateway_url gw (dispatchN roles_config identity
        gateway_url gw now uid action params N {}).2 now uid action params).2
      later uid identity.role roles_config).1 = true := by
    rw [check_fst, hstD]
    rw [prune_of_all_lt _ _ (fun x hx => by
      rw [List.eq_of_mem_replicate hx]
      unfold WINDOW_SECONDS at hlater ⊢
      omega)]
    simp [hlk, hN]
    omega
  refine ⟨hall, ?_, ?_, ?_⟩
  · rw [dispatch_ok_allowed]
    exact habf
  · rw [dispatch_rate_denied_fst _ _ _ _ _ _ _ _ _ hcf]
    rfl
  · rw [dispatch_ok_allowed, (admissionBlock_spec _ _ _ _ _ _ _).1, hc2, hpol]
    rfl

/-- C5 counterexample: with role limit 1, a call at time 0 is admitted and
recorded; a second call after the clock advanced by exactly the 60-unit
window duration (the claim's "at least the window duration") is still
denied, because the entry recorded at time 0 is not strictly older than
the cutoff `60 - 60 = 0` and so is not pruned. -/
theorem rate_limit_window_boundary_counterexample :
    (SkillRouter.dispatch
      [("operator", { allowed_actions := ["search_web"], rate_limit := some 1 })]
      (Except.ok { slack_user_id := "u1", role := "operator" }) "http://gw"
      (GatewayOutcome.httpResponse 200 "" (some "ok") none none "{}")
      {} 0 "u1" "search_web" {}).1.allowed = true ∧
    (SkillRouter.dispatch
      [("operator", { allowed_actions := ["search_web"], rate_limit := some 1 })]
      (Except.ok { slack_user_id := "u1", role := "operator" }) "http://gw"
      (GatewayOutcome.httpResponse 200 "" (some "ok") none none "{}")
      (SkillRouter.dispatch
        [("operator", { allowed_actions := ["search_web"], rate_limit := some 1 })]
        (Except.ok { slack_user_id := "u1", role := "operator" }) "http://gw"
        (GatewayOutcome.httpResponse 200 "" (some "ok") none none "{}")
        {} 0 "u1" "search_web" {}).2
      60 "u1" "search_web" {}).1.allowed = false ∧
    (SkillRouter.dispatch
      [("operator", { allowed_actions := ["search_web"], rate_limit := some 1 })]
      (Except.ok { slack_user_id := "u1", role := "operator" }) "http://gw"
      (GatewayOutcome.httpResponse 200 "" (some "ok") none none "{}")
      (SkillRouter.dispatch
        [("operator", { allowed_actions := ["search_web"], rate_limit := some 1 })]
        (Except.ok { slack_user_id := "u1", role := "operator" }) "http://gw"
        (GatewayOutcome.httpResponse 200 "" (some "ok") none none "{}")
        {} 0 "u1" "search_web" {}).2
      60 "u1" "search_web" {}).1.reason = "Rate limit exceeded" :=
  ⟨rfl, rfl, rfl⟩

/-- C5 witness: limit 1, one call at time 0 succeeds, the second call at
time 0 is denied with the rate-limit reason, and a call at time 61
(strictly more than the window past the recorded timestamp) succeeds. -/
theorem rate_limit_sequence_behavior_witness :
    (∀ r ∈ (dispatchN
      [("operator", { allowed_actions := ["search_web"], rate_limit := some 1 })]
      { slack_user_id := "u1", role := "operator" } "http://gw"
      (GatewayOutcome.httpResponse 200 "" (some "ok") none none "{}")
      0 "u1" "search_web" {} 1 {}).1, r.allowed = true) ∧
    (SkillRouter.dispatch
      [("operator", { allowed_actions := ["search_web"], rate_limit := some 1 })]
      (Except.ok { slack_user_id := "u1", role := "operator" }) "http://gw"
      (GatewayOutcome.httpResponse 200 "" (some "ok") none none "{}")
      (dispatchN
        [("operator", { allowed_actions := ["search_web"], rate_limit := some 1 })]
        { slack_user_id := "u1", role := "operator" } "http://gw"
        (GatewayOutcome.httpResponse 200 "" (some "ok") none none "{}")
        0 "u1" "search_web" {} 1 {}).2 0 "u1" "search_web" {}).1.allowed = false ∧
    (SkillRouter.dispatch
      [("operator", { allowed_actions := ["search_web"], rate_limit := some 1 })]
      (Except.ok { slack_user_id := "u1", role := "operator" }) "http://gw"
      (GatewayOutcome.httpResponse 200 "" (some "ok") none none "{}")
      (dispatchN
        [("operator", { allowed_actions := ["search_web"], rate_limit := some 1 })]
        { slack_user_id := "u1", role := "operator" } "http://gw"
        (GatewayOutcome.httpResponse 200 "" (some "ok") none none "{}")
        0 "u1" "search_web" {} 1 {}).2 0 "u1" "search_web" {}).1.reason
      = "Rate limit exceeded" ∧
    (SkillRouter.dispatch
      [("operator", { allowed_actions := ["search_web"], rate_limit := some 1 })]
      (Except.ok { slack_user_id := "u1", role := "operator" }) "http://gw"
      (GatewayOutcome.httpResponse 200 "" (some "ok") none none "{}")
      (SkillRouter.dispatch
        [("operator", { allowed_actions := ["search_web"], rate_limit := some 1 })]
        (Except.ok { slack_user_id := "u1", role := "operator" }) "http://gw"
        (GatewayOutcome.httpResponse 200 "" (some "ok") none none "{}")
        (dispatchN
          [("operator", { allowed_actions := ["search_web"], rate_limit := some 1 })]
          { slack_user_id := "u1", role := "operator" } "http://gw"
          (GatewayOutcome.httpResponse 200 "" (some "ok") none none "{}")
          0 "u1" "search_web" {} 1 {}).2 0 "u1" "search_web" {}).2
      61 "u1" "search_web" {}).1.allowed = true :=
  rate_limit_sequence_behavior
    [("operator", { allowed_actions := ["search_web"], rate_limit := some 1 })]
    { slack_user_id := "u1", role := "operator" } "http://gw"
    (GatewayOutcome.httpResponse 200 "" (some "ok") none none "{}")
    "u1" "search_web" {} { allowed_actions := ["search_web"], rate_limit := some 1 }
    1 0 61 (by rfl) (by rfl) (by decide) (by rfl) (by decide)

/-! ### C2 -/

/-- A dispatch task's phases between suspension points: the await on
identity resolution, the no-await admission segment (rate check, policy
check, record), and the await on the gateway call. Under the asyncio
event loop a task can only be preempted between phases, never inside the
admission segment. -/
inductive TaskPhase where
  | resolve
  | admission
  | gateway
deriving DecidableEq, Repr

/-- Execute an arbitrary interleaving of phases of concurrent dispatch
calls for one user against the shared limiter state: each `admission`
step runs one call's admission segment; `resolve` and `gateway` steps do
not touch the limiter state. Returns (admitted, denied, final state). -/
def runSchedule (roles_config : List (String × RoleConfig))
    (identity : Identity) (uid action : String) (params : Params) (now : Int) :
    List TaskPhase → RateLimiterState → Nat × Nat × RateLimiterState
  | [], st => (0, 0, st)
  | TaskPhase.resolve :: ps, st =>
    runSchedule roles_config identity uid action params now ps st
  | TaskPhase.gateway :: ps, st =>
    runSchedule roles_config identity uid action params now ps st
  | TaskPhase.admission :: ps, st =>
    let r := admissionBlock roles_config identity uid action params now st
    let rest := runSchedule roles_config identity uid action params now ps r.2
    if r.1 then (rest.1 + 1, rest.2.1, rest.2.2)
    else (rest.1, rest.2.1 + 1, rest.2.2)

/-- Counting invariant for any interleaving: starting from a window of
`m` same-instant timestamps, a schedule containing `c` admission steps
admits exactly `min (m + c) N - min m N` of them and denies the rest. -/
theorem runSchedule_counts (roles_config : List (String × RoleConfig))
    (identity : Identity) (uid action : String) (params : Params) (now : Int)
    (cfg : RoleConfig) (N : Nat)
    (hlk : roles_config.lookup identity.role = some cfg)
    (hN : cfg.rate_limit = some N)
    (hpol : (PolicyEngine.check roles_config identity action params).allowed = true) :
    ∀ sched : List TaskPhase, ∀ m st, st.getWindow uid = List.replicate m now →
      (runSchedule roles_config identity uid action params now sched st).1
        = Nat.min (m + sched.count TaskPhase.admission) N - Nat.min m N ∧
      (runSchedule roles_config identity uid action params now sched st).2.1
        = sched.count TaskPhase.admission -
          (Nat.min (m + sched.count TaskPhase.admission) N - Nat.min m N) := by
  intro sched
  induction sched with
  | nil =>
    intro m st hw
    simp [runSchedule]
  | cons p ps ih =>
    intro m st hw
    cases p with
    | resolve =>
      have h := ih m st hw
      simpa [runSchedule, List.count_cons] using h
    | gateway =>
      have h := ih m st hw
      simpa [runSchedule, List.count_cons] using h
    | admission =>
      have hcheck : (RateLimiter.check st now uid identity.role roles_config).1
          = decide (m < N) := by
        rw [check_fst, hw, prune_replicate_now]
        simp [hlk, hN]
      have hab := admissionBlock_spec roles_config identity uid action params now st
      by_cases hmN : m < N
      · have h1 : (admissionBlock roles_config identity uid action params now
            st).1 = true := by
          rw [hab.1, hcheck, hpol]
          simp [hmN]
        have h2 : (admissionBlock roles_config identity uid action params now
            st).2.getWindow uid = List.replicate (m + 1) now := by
          rw [hab.2, h1, if_pos rfl, hw, prune_replicate_now]
          exact (List.replicate_succ' m now).symm
        obtain ⟨iha, ihd⟩ := ih (m + 1)
          (admissionBlock roles_config identity uid action params now st).2 h2
        have hcc : List.count TaskPhase.admission (TaskPhase.admission :: ps)
            = List.count TaskPhase.admission ps + 1 := by
          simp [List.count_cons]
        unfold runSchedule
        dsimp only
        rw [h1, if_pos rfl]
        refine ⟨?_, ?_⟩
        · dsimp only
          rw [iha, hcc]
          simp only [Nat.min_def]
          split_ifs <;> omega
        · dsimp only
          rw [ihd, hcc]
          simp only [Nat.min_def]
          split_ifs <;> omega
      · have h1 : (admissionBlock roles_config identity uid action params now
            st).1 = false := by
          rw [hab.1, hcheck]
          simp [hmN]
        have h2 : (admissionBlock roles_config identity uid action params now
            st).2.getWindow uid = List.replicate m now := by
          rw [hab.2, h1]
          rw [if_neg (by simp), hw, prune_replicate_now]
        obtain ⟨iha, ihd⟩ := ih m
          (admissionBlock roles_config identity uid action params now st).2 h2
        have hcc : List.count TaskPhase.admission (TaskPhase.admission :: ps)
            = List.count TaskPhase.admission ps + 1 := by
          simp [List.count_cons]
        unfold runSchedule
        dsimp only
        rw [h1, if_neg (by simp)]
        refine ⟨?_, ?_⟩
        · dsimp only
          rw [iha, hcc]
          simp only [Nat.min_def]
          split_ifs <;> omega
        · dsimp only
          rw [ihd, hcc]
          simp only [Nat.min_def]
          split_ifs <;> omega

/-- C2: firing `k` concurrent dispatch calls for one user with role limit
`N < k` admits exactly `N` and denies exactly `k - N`, for every
interleaving of the tasks' phases: the admission segment (check followed
by record) contains no await and is therefore atomic per call under the
event loop, so any interleaving acts on the shared limiter state as some
sequence of whole admission segments. -/
theorem concurrent_dispatches_admit_exactly_limit
    (roles_config : List (String × RoleConfig)) (identity : Identity)
    (uid action : String) (params : Params) (now : Int)
    (sched : List TaskPhase) (cfg : RoleConfig) (N k : Nat)
    (hlk : roles_config.lookup identity.role = some cfg)
    (hN : cfg.rate_limit = some N)
    (hpol : (PolicyEngine.check roles_config identity action params).allowed = true)
    (hcount : sched.count TaskPhase.admission = k)
    (hkN : N < k) :
    (runSchedule roles_config identity uid action params now sched {}).1 = N ∧
    (runSchedule roles_config identity uid action params now sched {}).2.1
      = k - N := by
  obtain ⟨ha, hd⟩ := runSchedule_counts roles_config identity uid action params
    now cfg N hlk hN hpol sched 0 {} rfl
  rw [hcount] at ha hd
  constructor
  · rw [ha]
    simp only [Nat.min_def]
    split_ifs <;> omega
  · rw [hd]
    simp only [Nat.min_def]
    split_ifs <;> omega

/-- C2 witness: three concurrent calls against a limit of two — with
their resolve/admission/gateway phases interleaved — admit exactly two
and deny exactly one. -/
theorem concurrent_dispatches_admit_exactly_limit_witness :
    (runSchedule
      [("operator", { allowed_actions := ["search_web"], rate_limit := some 2 })]
      { slack_user_id := "u1", role := "operator" } "u1" "search_web" {} 0
      [TaskPhase.resolve, TaskPhase.resolve, TaskPhase.admission,
       TaskPhase.resolve, TaskPhase.admission, TaskPhase.gateway,
       TaskPhase.admission, TaskPhase.gateway, TaskPhase.gateway] {}).1 = 2 ∧
    (runSchedule
      [("operator", { allowed_actions := ["search_web"], rate_limit := some 2 })]
      { slack_user_id := "u1", role := "operator" } "u1" "search_web" {} 0
      [TaskPhase.resolve, TaskPhase.resolve, TaskPhase.admission,
       TaskPhase.resolve, TaskPhase.admission, TaskPhase.gateway,
       TaskPhase.admission, TaskPhase.gateway, TaskPhase.gateway] {}).2.1
      = 3 - 2 :=
  concurrent_dispatches_admit_exactly_limit
    [("operator", { allowed_actions := ["search_web"], rate_limit := some 2 })]
    { slack_user_id := "u1", role := "operator" } "u1" "search_web" {} 0
    [TaskPhase.resolve, TaskPhase.resolve, TaskPhase.admission,
     TaskPhase.resolve, TaskPhase.admission, TaskPhase.gateway,
     TaskPhase.admission, TaskPhase.gateway, TaskPhase.gateway]
    { allowed_actions := ["search_web"], rate_limit := some 2 } 2 3
    (by rfl) (by rfl) (by rfl) (by rfl) (by decide)

/-! ### C9 -/

/-- The failure shapes `send_message` converts into an error: connection
failure, timeout, and an HTTP status of 400 or above. (A 3xx status is
not treated as a failure by the code, although it is not a 2xx success.) -/
def GatewayOutcome.isFailure : GatewayOutcome → Bool
  | GatewayOutcome.connectionFailure _ => true
  | GatewayOutcome.timeoutFailure _ => true
  | GatewayOutcome.httpResponse status _ _ _ _ _ => decide (status ≥ 400)

/-- Every failure-shaped gateway outcome makes `send_message` return an
error. -/
theorem sendMessage_error_of_failure (gateway_url : String) (timeout : Int)
    (gw : GatewayOutcome) (msg : String) (h : gw.isFailure = true) :
    ∃ e, OpenClawClient.sendMessage gateway_url timeout gw msg
      = Except.error e := by
  cases gw with
  | connectionFailure d => exact ⟨_, rfl⟩
  | timeoutFailure d => exact ⟨_, rfl⟩
  | httpResponse status body reply text msg2 raw =>
    unfold GatewayOutcome.isFailure at h
    rw [decide_eq_true_eq] at h
    refine ⟨"OpenClaw gateway returned HTTP " ++ toString status ++ ": " ++
      body.take 200, ?_⟩
    unfold OpenClawClient.sendMessage
    dsimp only
    rw [if_pos h]

/-- C9 counterexample: a gateway reply with HTTP status 300 — not a 2xx
status — is treated as a success by the code (`send_message` raises only
for statuses at or above 400), so dispatch relays the reply verbatim
with the policy reason instead of an error-flavored response. -/
theorem gateway_non2xx_counterexample :
    ¬ (200 ≤ 300 ∧ 300 ≤ 299) ∧
    (SkillRouter.dispatch
      [("operator", { allowed_actions := ["search_web"] })]
      (Except.ok { slack_user_id := "u1", role := "operator" }) "http://gw"
      (GatewayOutcome.httpResponse 300 "" (some "moved") none none "{}")
      {} 0 "u1" "search_web" {}).1.allowed = true ∧
    (SkillRouter.dispatch
      [("operator", { allowed_actions := ["search_web"] })]
      (Except.ok { slack_user_id := "u1", role := "operator" }) "http://gw"
      (GatewayOutcome.httpResponse 300 "" (some "moved") none none "{}")
      {} 0 "u1" "search_web" {}).1.response = "moved" ∧
    (SkillRouter.dispatch
      [("operator", { allowed_actions := ["search_web"] })]
      (Except.ok { slack_user_id := "u1", role := "operator" }) "http://gw"
      (GatewayOutcome.httpResponse 300 "" (some "moved") none none "{}")
      {} 0 "u1" "search_web" {}).1.reason ≠ "OpenClaw execution error" :=
  ⟨by decide, rfl, rfl, by decide⟩

/-- C9 (amended): when identity, rate limit and policy all pass but the
gateway call fails — connection failure, timeout, or HTTP status at or
above 400 (the code's actual error threshold, not every non-2xx) — the
dispatch result still has `allowed=true`, carries the distinct reason
"OpenClaw execution error", and its response wraps the gateway error
detail behind the warning prefix. In the embedding `dispatch` is a total
function into `SkillResponse`, so every such failure is converted into a
structured result rather than escaping. -/
theorem gateway_failure_reported_as_execution_error
    (roles_config : List (String × RoleConfig)) (identity : Identity)
    (gateway_url : String) (gw : GatewayOutcome) (st : RateLimiterState)
    (now : Int) (uid action : String) (params : Params)
    (hrate : (RateLimiter.check st now uid identity.role roles_config).1 = true)
    (hpol : (PolicyEngine.check roles_config identity action params).allowed = true)
    (hfail : gw.isFailure = true) :
    (SkillRouter.dispatch roles_config (Except.ok identity) gateway_url gw st
      now uid action params).1.allowed = true ∧
    (SkillRouter.dispatch roles_config (Except.ok identity) gateway_url gw st
      now uid action params).1.reason = "OpenClaw execution error" ∧
    ∀ e, OpenClawClient.sendMessage gateway_url TIMEOUT_SECONDS gw
        (buildOpenClawMessage action
          (PolicyEngine.check roles_config identity action params).sanitized_params)
        = Except.error e →
      (SkillRouter.dispatch roles_config (Except.ok identity) gateway_url gw st
        now uid action params).1.response =
        "⚠️ Action was approved but OpenClaw returned an error: " ++ e := by
  obtain ⟨e, he⟩ := sendMessage_error_of_failure gateway_url TIMEOUT_SECONDS gw
    (buildOpenClawMessage action
      (PolicyEngine.check roles_config identity action params).sanitized_params)
    hfail
  unfold SkillRouter.dispatch
  dsimp only
  rw [hrate, hpol]
  simp only [Bool.not_true, Bool.false_eq_true, if_false]
  rw [he]
  refine ⟨rfl, rfl, ?_⟩
  intro e2 he2
  rw [Except.error.injEq] at he2
  exact congrArg
    (fun s => "⚠️ Action was approved but OpenClaw returned an error: " ++ s) he2

/-- C9 witness: an unreachable gateway after an approved request yields
`allowed=true` with the execution-error reason and the wrapped detail. -/
theorem gateway_failure_reported_as_execution_error_witness :
    (SkillRouter.dispatch
      [("operator", { allowed_actions := ["search_web"] })]
      (Except.ok { slack_user_id := "u1", role := "operator" }) "http://gw"
      (GatewayOutcome.connectionFailure "boom") {} 0 "u1" "search_web"
      {}).1.allowed = true ∧
    (SkillRouter.dispatch
      [("operator", { allowed_actions := ["search_web"] })]
      (Except.ok { slack_user_id := "u1", role := "operator" }) "http://gw"
      (GatewayOutcome.connectionFailure "boom") {} 0 "u1" "search_web"
      {}).1.reason = "OpenClaw execution error" ∧
    (SkillRouter.dispatch
      [("operator", { allowed_actions := ["search_web"] })]
      (Except.ok { slack_user_id := "u1", role := "operator" }) "http://gw"
      (GatewayOutcome.connectionFailure "boom") {} 0 "u1" "search_web"
      {}).1.response =
      "⚠️ Action was approved but OpenClaw returned an error: " ++
        "Cannot reach OpenClaw gateway at http://gw: boom" :=
  ⟨(gateway_failure_reported_as_execution_error _ _ _ _ _ _ _ _ _ (by rfl)
      (by rfl) (by rfl)).1,
   (gateway_failure_reported_as_execution_error _ _ _ _ _ _ _ _ _ (by rfl)
      (by rfl) (by rfl)).2.1,
   (gateway_failure_reported_as_execution_error
      [("operator", { allowed_actions := ["search_web"] })]
      { slack_user_id := "u1", role := "operator" } "http://gw"
      (GatewayOutcome.connectionFailure "boom") {} 0 "u1" "search_web" {}
      (by rfl) (by rfl) (by rfl)).2.2
      "Cannot reach OpenClaw gateway at http://gw: boom" (by rfl)⟩
